import Mathlib

/-!
Verification of the SFML "Super Mario" platformer (src/supermario.cpp).

The game's physics and state-machine logic is shallowly embedded below:
float arithmetic is modelled exactly over `ℚ`, SFML rectangles become a
`Rect` structure, and the SFML strict-overlap test `findIntersection`
becomes `checkCollision`.  Stateful C++ methods become pure functions on
record states; the per-frame loops over platforms, enemies and coins
become structural recursions / folds in the same left-to-right order as
the source.  Rendering, textures, fonts and the camera view are out of
scope of the claims and are not modelled.
-/

/-- Global constant `GRAVITY` (supermario.cpp line 10). -/
def GRAVITY : ℚ := 900

/-- Global constant `PLAYER_JUMP_VELOCITY` (line 11). -/
def PLAYER_JUMP_VELOCITY : ℚ := -500

/-- Global constant `PLAYER_MOVE_SPEED` (line 12). -/
def PLAYER_MOVE_SPEED : ℚ := 200

/-- Global constant `ENEMY_MOVE_SPEED` (line 13). -/
def ENEMY_MOVE_SPEED : ℚ := 80

/-- Global constant `COLLISION_EPSILON` (line 14). -/
def COLLISION_EPSILON : ℚ := 1/10

/-- An axis-aligned rectangle: top-left position plus size
(`sf::FloatRect` / `sf::RectangleShape` bounds). -/
structure Rect where
  px : ℚ
  py : ℚ
  sx : ℚ
  sy : ℚ
deriving DecidableEq

/-- `checkCollision` (line 37): AABB overlap via SFML 3
`FloatRect::findIntersection`, which reports an intersection exactly when
the intersection rectangle has positive width and height (strict
inequalities; touching edges do not collide). -/
def checkCollision (r1 r2 : Rect) : Bool :=
  let interLeft := max r1.px r2.px
  let interTop := max r1.py r2.py
  let interRight := min (r1.px + r1.sx) (r2.px + r2.sx)
  let interBottom := min (r1.py + r1.sy) (r2.py + r2.sy)
  decide (interLeft < interRight) && decide (interTop < interBottom)

/-- Player state: sprite position (top-left), velocity and the
`onGround` flag (class `Player`, lines 45-157).  The sprite size is the
constant 40×60 set in the constructor. -/
structure Player where
  x : ℚ
  y : ℚ
  vx : ℚ
  vy : ℚ
  onGround : Bool
deriving DecidableEq

/-- Player sprite width (constructor line 58). -/
def playerW : ℚ := 40

/-- Player sprite height (constructor line 58). -/
def playerH : ℚ := 60

/-- `sprite.getGlobalBounds()` of the player. -/
def playerBounds (p : Player) : Rect :=
  { px := p.x, py := p.y, sx := playerW, sy := playerH }

/-- One iteration of the horizontal-collision loop of `Player::update`
(lines 84-95): on overlap, push the player out along x according to the
sign of `vx` and zero `vx`. -/
def hCollideOne (p : Player) (plat : Rect) : Player :=
  if checkCollision (playerBounds p) plat then
    if 0 < p.vx then
      { p with x := plat.px - playerW - COLLISION_EPSILON, vx := 0 }
    else if p.vx < 0 then
      { p with x := plat.px + plat.sx + COLLISION_EPSILON, vx := 0 }
    else
      { p with vx := 0 }
  else p

/-- One iteration of the vertical-collision loop of `Player::update`
(lines 103-117): falling snaps the bottom edge to the platform top,
zeroes `vy` and sets `onGround`; rising snaps the top edge below the
platform and zeroes `vy`. -/
def vCollideOne (p : Player) (plat : Rect) : Player :=
  if checkCollision (playerBounds p) plat then
    if 0 < p.vy then
      { p with y := plat.py - playerH, vy := 0, onGround := true }
    else if p.vy < 0 then
      { p with y := plat.py + plat.sy + COLLISION_EPSILON, vy := 0 }
    else p
  else p

/-- Gravity integration `velocity.y += GRAVITY * deltaTime` (line 78). -/
def Player.afterGravity (p : Player) (dt : ℚ) : Player :=
  { p with vy := p.vy + GRAVITY * dt }

/-- Horizontal move `sprite.move(velocity.x * deltaTime, 0)` (line 81). -/
def Player.afterHMove (p : Player) (dt : ℚ) : Player :=
  { p with x := p.x + p.vx * dt }

/-- The horizontal-collision loop over the platform list, in list order
(lines 84-95). -/
def hResolve (p : Player) (platforms : List Rect) : Player :=
  platforms.foldl hCollideOne p

/-- The player state entering the vertical-collision loop: gravity,
horizontal move, horizontal resolution, vertical move
`sprite.move(0, velocity.y * deltaTime)` and the `onGround = false`
reset (lines 78-100). -/
def vmoveState (p : Player) (dt : ℚ) (platforms : List Rect) : Player :=
  let h := hResolve ((p.afterGravity dt).afterHMove dt) platforms
  { h with y := h.y + h.vy * dt, onGround := false }

/-- Player state after the vertical-collision loop (lines 103-117),
i.e. everything of `Player::update` before the window-edge clamp. -/
def preClampPlayer (p : Player) (dt : ℚ) (platforms : List Rect) : Player :=
  platforms.foldl vCollideOne (vmoveState p dt platforms)

/-- The window-edge clamp of `Player::update` (lines 119-127): keep the
sprite inside x ∈ [0, 800 − width] ("Assuming window width 800"),
zeroing `vx` when a clamp fires. -/
def clampX (p : Player) : Player :=
  let p1 := if p.x < 0 then { p with x := 0, vx := 0 } else p
  if 800 < p1.x + playerW then { p1 with x := 800 - playerW, vx := 0 } else p1

/-- `Player::update(deltaTime, platforms)` (lines 76-131). -/
def Player.update (p : Player) (dt : ℚ) (platforms : List Rect) : Player :=
  clampX (preClampPlayer p dt platforms)

/-- `Player::handleInput()` (lines 136-149): Left/Right set `vx`
(sequential assignment, Right wins), Space jumps only when `onGround`. -/
structure Input where
  restartPressed : Bool
  left : Bool
  right : Bool
  jump : Bool
deriving DecidableEq

def Player.handleInput (p : Player) (inp : Input) : Player :=
  let p1 := { p with vx := 0 }
  let p2 := if inp.left then { p1 with vx := -PLAYER_MOVE_SPEED } else p1
  let p3 := if inp.right then { p2 with vx := PLAYER_MOVE_SPEED } else p2
  if inp.jump && p3.onGround then
    { p3 with vy := PLAYER_JUMP_VELOCITY, onGround := false }
  else p3

/-- Enemy state (class `Enemy`, lines 163-218): sprite position,
horizontal velocity and patrol bounds.  Sprite size is the constant
40×40 set in the constructor. -/
structure Enemy where
  x : ℚ
  y : ℚ
  vx : ℚ
  leftBound : ℚ
  rightBound : ℚ
deriving DecidableEq

/-- Enemy sprite width (constructor line 176). -/
def enemyW : ℚ := 40

/-- Enemy sprite height (constructor line 176). -/
def enemyH : ℚ := 40

/-- `sprite.getGlobalBounds()` of an enemy. -/
def enemyBounds (e : Enemy) : Rect :=
  { px := e.x, py := e.y, sx := enemyW, sy := enemyH }

/-- The `Enemy` constructor (lines 175-190): velocity starts at
`ENEMY_MOVE_SPEED`, the true bounds are the min/max of the two
constructor arguments. -/
def Enemy.spawn (startX startY bound1 bound2 : ℚ) : Enemy :=
  { x := startX, y := startY, vx := ENEMY_MOVE_SPEED,
    leftBound := min bound1 bound2, rightBound := max bound1 bound2 }

/-- `Enemy::update(deltaTime)` (lines 196-210): move by `vx * dt`; if
the moved left edge is ≤ `leftBound` or the moved right edge is
≥ `rightBound`, negate `vx` and snap exactly to the violated bound
(the left bound when the left test fired, else the right bound). -/
def Enemy.update (e : Enemy) (dt : ℚ) : Enemy :=
  let x1 := e.x + e.vx * dt
  if x1 ≤ e.leftBound ∨ e.rightBound ≤ x1 + enemyW then
    if x1 ≤ e.leftBound then
      { e with x := e.leftBound, vx := -e.vx }
    else
      { e with x := e.rightBound - enemyW, vx := -e.vx }
  else
    { e with x := x1 }

/-- Coin state (class `Coin`, lines 224-277): position and the
`collected` flag.  Sprite size is the constant 30×30.  The wall-clock
animation fields never influence `collected`, the score or any claim
and are not modelled. -/
structure Coin where
  x : ℚ
  y : ℚ
  collected : Bool
deriving DecidableEq

/-- Coin sprite width (constructor line 241). -/
def coinW : ℚ := 30

/-- Coin sprite height (constructor line 241). -/
def coinH : ℚ := 30

/-- `sprite.getGlobalBounds()` of a coin. -/
def coinBounds (c : Coin) : Rect :=
  { px := c.x, py := c.y, sx := coinW, sy := coinH }

/-- `GameState` enum (lines 24-27). -/
inductive GameState where
  | Playing
  | GameOver
deriving DecidableEq

/-- The mutable state of class `Game` that the gameplay logic touches
(lines 285-305): current state, player, platform/enemy/coin lists,
score and lives.  Window, camera view, textures and text objects are
rendering-only and not modelled. -/
structure Game where
  currentState : GameState
  player : Player
  platforms : List Rect
  enemies : List Enemy
  coins : List Coin
  score : ℤ
  lives : ℤ
deriving DecidableEq

/-- The platform list built by `Game::initLevel` (lines 378-403). -/
def levelPlatforms : List Rect :=
  [{ px := 0, py := 500, sx := 2000, sy := 50 },
   { px := 250, py := 400, sx := 200, sy := 30 },
   { px := 500, py := 300, sx := 150, sy := 30 },
   { px := 800, py := 450, sx := 300, sy := 30 },
   { px := 1100, py := 350, sx := 100, sy := 30 }]

/-- The enemy list built by `Game::initLevel` (lines 406-408). -/
def levelEnemies : List Enemy :=
  [Enemy.spawn 300 460 250 450,
   Enemy.spawn 600 260 550 700,
   Enemy.spawn 900 410 850 1000]

/-- The coin list built by `Game::initLevel` (lines 411-415). -/
def levelCoins : List Coin :=
  [{ x := 270, y := 360, collected := false },
   { x := 550, y := 260, collected := false },
   { x := 600, y := 260, collected := false },
   { x := 850, y := 410, collected := false },
   { x := 1120, y := 310, collected := false }]

/-- `Game::initLevel` (lines 370-422): clear and rebuild the three
entity lists, reset score to 0 and lives to 3, reset the player to the
start position with zero velocity, and set the state to `Playing`.
Nothing of the previous state is consulted. -/
def Game.initLevel (_g : Game) : Game :=
  { currentState := GameState.Playing,
    player := { x := 100, y := 400, vx := 0, vy := 0, onGround := false },
    platforms := levelPlatforms,
    enemies := levelEnemies,
    coins := levelCoins,
    score := 0,
    lives := 3 }

/-- The stomp test of `Game::update` (lines 511-512): the player is
falling and the player's bottom edge is above the enemy's top edge plus
the 20-unit threshold. -/
def stompCond (p : Player) (e : Enemy) : Bool :=
  decide (0 < p.vy) && decide (p.y + playerH < e.y + 20)

/-- The player-enemy interaction of `Game::update` (lines 509-528),
applied to an enemy that has already moved this frame: on overlap,
either stomp (enemy teleported to (-1000,-1000), player bounced with
`vy = PLAYER_JUMP_VELOCITY / 2`, score +100) or damage (lives -1,
player respawned at (100,400) with zero velocity, `GameOver` when the
decremented lives are ≤ 0). -/
def enemyCollide (g : Game) (e : Enemy) : Game × Enemy :=
  if checkCollision (playerBounds g.player) (enemyBounds e) then
    if stompCond g.player e then
      ({ g with
           player := { g.player with vy := PLAYER_JUMP_VELOCITY / 2 },
           score := g.score + 100 },
       { e with x := -1000, y := -1000 })
    else
      ({ g with
           lives := g.lives - 1,
           player := { g.player with x := 100, y := 400, vx := 0, vy := 0 },
           currentState :=
             if g.lives - 1 ≤ 0 then GameState.GameOver else g.currentState },
       e)
  else (g, e)

/-- One iteration of the enemy loop in `Game::update` (lines 505-529):
`enemy.update(deltaTime)` followed by the collision interaction. -/
def interactEnemy (dt : ℚ) (g : Game) (e : Enemy) : Game × Enemy :=
  enemyCollide g (e.update dt)

/-- The enemy loop of `Game::update`, left to right over the vector,
threading the evolving game state (lines 505-529). -/
def processEnemies (dt : ℚ) (g : Game) : List Enemy → Game × List Enemy
  | [] => (g, [])
  | e :: es =>
    let r := interactEnemy dt g e
    let rest := processEnemies dt r.1 es
    (rest.1, r.2 :: rest.2)

/-- One iteration of the coin loop in `Game::update` (lines 532-538):
an uncollected coin overlapping the player becomes collected and adds
10 to the score; otherwise nothing changes. -/
def coinStep (g : Game) (c : Coin) : Game × Coin :=
  if !c.collected && checkCollision (playerBounds g.player) (coinBounds c) then
    ({ g with score := g.score + 10 }, { c with collected := true })
  else (g, c)

/-- The coin loop of `Game::update`, left to right over the vector
(lines 532-538). -/
def processCoins (g : Game) : List Coin → Game × List Coin
  | [] => (g, [])
  | c :: cs =>
    let r := coinStep g c
    let rest := processCoins r.1 cs
    (rest.1, r.2 :: rest.2)

/-- The tail of `Game::update` after the fall-off-screen check: the
enemy loop then the coin loop (lines 504-538).  The score-text and
camera updates that follow touch only rendering state. -/
def updateRest (g : Game) (dt : ℚ) : Game :=
  let pe := processEnemies dt g g.enemies
  let g2 := { pe.1 with enemies := pe.2 }
  let pc := processCoins g2 g2.coins
  { pc.1 with coins := pc.2 }

/-- `Game::update(deltaTime)` (lines 489-568): player physics, the
fall-off-screen check at y > 700 (with its early `return` on
`GameOver`), then enemies and coins. -/
def Game.update (g : Game) (dt : ℚ) : Game :=
  let gp := { g with player := g.player.update dt g.platforms }
  if 700 < gp.player.y then
    if gp.lives - 1 ≤ 0 then
      { gp with lives := gp.lives - 1, currentState := GameState.GameOver }
    else
      updateRest
        { gp with
            lives := gp.lives - 1,
            player := { gp.player with x := 100, y := 400, vx := 0, vy := 0 } }
        dt
  else
    updateRest gp dt

/-- `Game::handleEvents` (lines 447-483), restricted to gameplay
state: the R-key restart fires only in `GameOver` and calls
`initLevel`; afterwards continuous input is forwarded to the player
only when the (possibly new) state is `Playing`. -/
def Game.handleEvents (g : Game) (inp : Input) : Game :=
  let g1 :=
    if g.currentState = GameState.GameOver ∧ inp.restartPressed = true then
      Game.initLevel g
    else g
  if g1.currentState = GameState.Playing then
    { g1 with player := g1.player.handleInput inp }
  else g1

/-- One iteration of `Game::run` (lines 428-440): events first, then
`update(deltaTime)` only while `Playing` (rendering has no effect on
the modelled state). -/
def Game.frame (g : Game) (inp : Input) (dt : ℚ) : Game :=
  let g1 := g.handleEvents inp
  if g1.currentState = GameState.Playing then g1.update dt else g1

/-! ## Helper lemmas about the vertical-collision loop and the clamp -/

theorem vCollideOne_of_no_overlap (p : Player) (plat : Rect)
    (h : checkCollision (playerBounds p) plat = false) :
    vCollideOne p plat = p := by
  simp [vCollideOne, h]

theorem vCollideOne_of_vy_zero (p : Player) (plat : Rect) (h : p.vy = 0) :
    vCollideOne p plat = p := by
  simp [vCollideOne, h]

theorem foldl_vCollideOne_of_vy_zero (p : Player) (l : List Rect) (h : p.vy = 0) :
    l.foldl vCollideOne p = p := by
  induction l with
  | nil => rfl
  | cons a l ih => simp [List.foldl_cons, vCollideOne_of_vy_zero p a h, ih]

theorem foldl_vCollideOne_of_no_overlap (p : Player) (l : List Rect)
    (h : ∀ pl ∈ l, checkCollision (playerBounds p) pl = false) :
    l.foldl vCollideOne p = p := by
  induction l with
  | nil => rfl
  | cons a l ih =>
    have ha := h a (List.mem_cons_self a l)
    rw [List.foldl_cons, vCollideOne_of_no_overlap p a ha]
    exact ih fun pl hpl => h pl (List.mem_cons_of_mem a hpl)

theorem clampX_y (p : Player) : (clampX p).y = p.y := by
  simp only [clampX]
  split_ifs <;> rfl

theorem clampX_vy (p : Player) : (clampX p).vy = p.vy := by
  simp only [clampX]
  split_ifs <;> rfl

theorem clampX_onGround (p : Player) : (clampX p).onGround = p.onGround := by
  simp only [clampX]
  split_ifs <;> rfl

theorem vCollideOne_ground_inv (p : Player) (plat : Rect)
    (h : p.onGround = true → p.vy = 0) :
    (vCollideOne p plat).onGround = true → (vCollideOne p plat).vy = 0 := by
  simp only [vCollideOne]
  split_ifs with h1 h2 h3
  · intro _; rfl
  · intro hg; rfl
  · exact h
  · exact h

theorem foldl_vCollideOne_ground_inv (l : List Rect) (p : Player)
    (h : p.onGround = true → p.vy = 0) :
    (l.foldl vCollideOne p).onGround = true → (l.foldl vCollideOne p).vy = 0 := by
  induction l generalizing p with
  | nil => exact h
  | cons a l ih => exact ih (vCollideOne p a) (vCollideOne_ground_inv p a h)

/-- C10: after every `Player::update`, `onGround = true` implies that the
vertical velocity is 0: `onGround` is set only by the landing branch of
the vertical-collision loop, which zeroes `vy` in the same assignment
block, and no later step of the update writes `vy`. -/
theorem onGround_implies_vy_zero (p : Player) (dt : ℚ) (platforms : List Rect)
    (h : (p.update dt platforms).onGround = true) :
    (p.update dt platforms).vy = 0 := by
  have hg : (preClampPlayer p dt platforms).onGround = true := by
    rw [Player.update, clampX_onGround] at h
    exact h
  have hbase : (vmoveState p dt platforms).onGround = true →
      (vmoveState p dt platforms).vy = 0 := by
    intro hc
    exact absurd hc (by simp [vmoveState])
  rw [Player.update, clampX_vy]
  exact foldl_vCollideOne_ground_inv platforms (vmoveState p dt platforms) hbase hg

/-- Witness for C10: a concrete landing.  A player falling with `vy = 310`
at `dt = 1/10` onto the platform `[0,100]×[400,430]` lands with
`onGround = true`, and the theorem yields `vy = 0`. -/
theorem onGround_implies_vy_zero_witness :
    (Player.update ⟨0, 330, 0, 310, false⟩ (1/10) [⟨0, 400, 100, 30⟩]).onGround = true ∧
    (Player.update ⟨0, 330, 0, 310, false⟩ (1/10) [⟨0, 400, 100, 30⟩]).vy = 0 := by
  have h : (Player.update ⟨0, 330, 0, 310, false⟩ (1/10) [⟨0, 400, 100, 30⟩]).onGround = true := by
    norm_num [Player.update, preClampPlayer, vmoveState, hResolve, Player.afterGravity,
      Player.afterHMove, clampX, vCollideOne, hCollideOne, checkCollision, playerBounds,
      playerW, playerH, GRAVITY, COLLISION_EPSILON]
  exact ⟨h, onGround_implies_vy_zero ⟨0, 330, 0, 310, false⟩ (1/10) [⟨0, 400, 100, 30⟩] h⟩

/-- C1 (amended): if the player's velocity at the vertical-resolution
step is positive (falling) and the post-vertical-move bounds overlap
some platform, then the resolution snaps the player's bottom edge to
the top edge of the FIRST overlapping platform in list order, zeroes
`vy`, and sets `onGround = true`; the window clamp afterwards touches
only `x`/`vx`.  The platform list is written `pre ++ P :: post` with
`pre` the platforms before the first overlap. -/
theorem vertical_landing_first_platform (p : Player) (dt : ℚ)
    (pre post : List Rect) (P : Rect)
    (hvy : 0 < (vmoveState p dt (pre ++ P :: post)).vy)
    (hpre : ∀ pl ∈ pre,
      checkCollision (playerBounds (vmoveState p dt (pre ++ P :: post))) pl = false)
    (hP : checkCollision (playerBounds (vmoveState p dt (pre ++ P :: post))) P = true) :
    (Player.update p dt (pre ++ P :: post)).y + playerH = P.py ∧
    (Player.update p dt (pre ++ P :: post)).vy = 0 ∧
    (Player.update p dt (pre ++ P :: post)).onGround = true := by
  set q := vmoveState p dt (pre ++ P :: post) with hq
  have hsnap : vCollideOne q P =
      { q with y := P.py - playerH, vy := 0, onGround := true } := by
    simp [vCollideOne, hP, hvy]
  have hfold : (pre ++ P :: post).foldl vCollideOne q =
      { q with y := P.py - playerH, vy := 0, onGround := true } := by
    rw [List.foldl_append, foldl_vCollideOne_of_no_overlap q pre hpre,
      List.foldl_cons, hsnap]
    exact foldl_vCollideOne_of_vy_zero _ post rfl
  have hpc : preClampPlayer p dt (pre ++ P :: post) =
      { q with y := P.py - playerH, vy := 0, onGround := true } := by
    rw [preClampPlayer, ← hq, hfold]
  refine ⟨?_, ?_, ?_⟩
  · rw [Player.update, clampX_y, hpc]; ring
  · rw [Player.update, clampX_vy, hpc]
  · rw [Player.update, clampX_onGround, hpc]

/-- Witness for C1 (amended): the spec's own landing scenario — a player
falling at `vy = 310`, `dt = 1/10`, onto a platform with top edge 400
covering the player's x-range; the resolution ends with bottom edge 400,
`vy = 0` and `onGround = true`. -/
theorem vertical_landing_first_platform_witness :
    0 < (vmoveState ⟨0, 330, 0, 310, false⟩ (1/10) ([] ++ ⟨0, 400, 100, 30⟩ :: [])).vy ∧
    checkCollision
      (playerBounds (vmoveState ⟨0, 330, 0, 310, false⟩ (1/10)
        ([] ++ ⟨0, 400, 100, 30⟩ :: []))) ⟨0, 400, 100, 30⟩ = true ∧
    ((Player.update ⟨0, 330, 0, 310, false⟩ (1/10) ([] ++ ⟨0, 400, 100, 30⟩ :: [])).y
        + playerH = (400 : ℚ) ∧
      (Player.update ⟨0, 330, 0, 310, false⟩ (1/10) ([] ++ ⟨0, 400, 100, 30⟩ :: [])).vy = 0 ∧
      (Player.update ⟨0, 330, 0, 310, false⟩ (1/10)
        ([] ++ ⟨0, 400, 100, 30⟩ :: [])).onGround = true) := by
  refine ⟨?_, ?_, ?_⟩
  · norm_num [vmoveState, hResolve, Player.afterGravity, Player.afterHMove, hCollideOne,
      checkCollision, playerBounds, playerW, playerH, GRAVITY]
  · norm_num [vmoveState, hResolve, Player.afterGravity, Player.afterHMove, hCollideOne,
      checkCollision, playerBounds, playerW, playerH, GRAVITY]
  · exact vertical_landing_first_platform ⟨0, 330, 0, 310, false⟩ (1/10) [] []
      ⟨0, 400, 100, 30⟩
      (by norm_num [vmoveState, hResolve, Player.afterGravity, Player.afterHMove,
        hCollideOne, checkCollision, playerBounds, playerW, playerH, GRAVITY])
      (by intro pl hpl; cases hpl)
      (by norm_num [vmoveState, hResolve, Player.afterGravity, Player.afterHMove,
        hCollideOne, checkCollision, playerBounds, playerW, playerH, GRAVITY])

/-- A falling player for the C1 counterexample: at `dt = 1/10` gravity
brings `vy` to 400 and the vertical move takes the bottom edge from 90
to 130, newly overlapping BOTH stacked platforms `c1A` (top 100) and
`c1B` (top 120) from above. -/
def c1Player : Player := { x := 0, y := 30, vx := 0, vy := 310, onGround := false }

/-- First platform of the C1 counterexample (top edge 100). -/
def c1A : Rect := { px := 0, py := 100, sx := 100, sy := 10 }

/-- Second platform of the C1 counterexample (top edge 120). -/
def c1B : Rect := { px := 0, py := 120, sx := 100, sy := 10 }

/-- Counterexample to C1 as stated: the player is falling (velocity at
the vertical step is 400 > 0), its bounds did not overlap `c1B` before
the vertical move, its old bottom edge (90) is above `c1B`'s top edge
(120), and after the vertical move the bounds DO newly overlap `c1B`
from above — yet the resolution step ends with the bottom edge at 100
(the top of the earlier platform `c1A`), not at `c1B`'s top edge.  The
universally-quantified claim fails for `c1B`. -/
theorem vertical_landing_claim_cex :
    0 < (vmoveState c1Player (1/10) [c1A, c1B]).vy ∧
    checkCollision
      (playerBounds (hResolve ((c1Player.afterGravity (1/10)).afterHMove (1/10))
        [c1A, c1B])) c1B = false ∧
    (hResolve ((c1Player.afterGravity (1/10)).afterHMove (1/10)) [c1A, c1B]).y
      + playerH ≤ c1B.py ∧
    checkCollision (playerBounds (vmoveState c1Player (1/10) [c1A, c1B])) c1B = true ∧
    (Player.update c1Player (1/10) [c1A, c1B]).y + playerH = 100 ∧
    c1B.py = 120 ∧
    (Player.update c1Player (1/10) [c1A, c1B]).y + playerH ≠ c1B.py := by
  norm_num [Player.update, preClampPlayer, vmoveState, hResolve, Player.afterGravity,
    Player.afterHMove, clampX, vCollideOne, hCollideOne, checkCollision, playerBounds,
    playerW, playerH, GRAVITY, COLLISION_EPSILON, c1Player, c1A, c1B]

/-- C2: when the player's bounds overlap an enemy's bounds, the
interaction in `Game::update` is classified as a stomp exactly when the
player is falling (`vy > 0`) and the player's bottom edge is below the
threshold `enemy top + 20`; a stomp moves the enemy to (-1000,-1000),
adds exactly 100 to the score and sets the player's vertical velocity
to `PLAYER_JUMP_VELOCITY / 2 = -250`; any other overlap takes the
damage branch (lives decrease by 1). -/
theorem stomp_classification (g : Game) (e : Enemy)
    (hov : checkCollision (playerBounds g.player) (enemyBounds e) = true) :
    (stompCond g.player e = true ↔
      0 < g.player.vy ∧ g.player.y + playerH < e.y + 20) ∧
    (stompCond g.player e = true →
      (enemyCollide g e).2.x = -1000 ∧ (enemyCollide g e).2.y = -1000 ∧
      (enemyCollide g e).1.score = g.score + 100 ∧
      (enemyCollide g e).1.player.vy = -250 ∧
      PLAYER_JUMP_VELOCITY / 2 = (-250 : ℚ)) ∧
    (stompCond g.player e = false →
      (enemyCollide g e).1.lives = g.lives - 1) := by
  refine ⟨by simp [stompCond], ?_, ?_⟩
  · intro hs
    refine ⟨?_, ?_, ?_, ?_, ?_⟩ <;>
      norm_num [enemyCollide, hov, hs, PLAYER_JUMP_VELOCITY]
  · intro hs
    simp [enemyCollide, hov, hs]

/-- Witness for C2: a concrete stomp.  The player at (290,415) falls
with `vy = 100` onto the enemy at (300,460); the bounds overlap, the
stomp condition holds (bottom edge 475 < 480), and the theorem yields
the stomp effects. -/
theorem stomp_classification_witness :
    checkCollision
      (playerBounds { x := 290, y := 415, vx := 0, vy := 100, onGround := false })
      (enemyBounds { x := 300, y := 460, vx := 80, leftBound := 250, rightBound := 450 })
        = true ∧
    stompCond { x := 290, y := 415, vx := 0, vy := 100, onGround := false }
      { x := 300, y := 460, vx := 80, leftBound := 250, rightBound := 450 } = true ∧
    (enemyCollide
      { currentState := GameState.Playing,
        player := { x := 290, y := 415, vx := 0, vy := 100, onGround := false },
        platforms := [], enemies := [], coins := [], score := 40, lives := 3 }
      { x := 300, y := 460, vx := 80, leftBound := 250, rightBound := 450 }).1.score = 140 := by
  have hov : checkCollision
      (playerBounds { x := 290, y := 415, vx := 0, vy := 100, onGround := false })
      (enemyBounds { x := 300, y := 460, vx := 80, leftBound := 250, rightBound := 450 })
        = true := by
    norm_num [checkCollision, playerBounds, enemyBounds, playerW, playerH, enemyW, enemyH]
  have hs : stompCond { x := 290, y := 415, vx := 0, vy := 100, onGround := false }
      { x := 300, y := 460, vx := 80, leftBound := 250, rightBound := 450 } = true := by
    norm_num [stompCond, playerH]
  refine ⟨hov, hs, ?_⟩
  have h := (stomp_classification
    { currentState := GameState.Playing,
      player := { x := 290, y := 415, vx := 0, vy := 100, onGround := false },
      platforms := [], enemies := [], coins := [], score := 40, lives := 3 }
    { x := 300, y := 460, vx := 80, leftBound := 250, rightBound := 450 } hov).2.1 hs
  rw [h.2.2.1]
  norm_num

/-- An enemy's position lies in its patrol interval
`[leftBound, rightBound − width]`. -/
def enemyInBounds (e : Enemy) : Prop :=
  e.leftBound ≤ e.x ∧ e.x + enemyW ≤ e.rightBound

/-- The one-step flip/snap behaviour of `Enemy::update`: the sign of
`vx` is negated exactly when the moved position touches a bound, with
the position snapped exactly to the violated bound; otherwise the
velocity is kept and the position is just the moved position. -/
def enemyStepSpec (e : Enemy) (dt : ℚ) : Prop :=
  ((e.x + e.vx * dt ≤ e.leftBound ∨ e.rightBound ≤ e.x + e.vx * dt + enemyW) →
    (e.update dt).vx = -e.vx ∧
    (e.x + e.vx * dt ≤ e.leftBound → (e.update dt).x = e.leftBound) ∧
    (¬ e.x + e.vx * dt ≤ e.leftBound → (e.update dt).x = e.rightBound - enemyW)) ∧
  (¬ (e.x + e.vx * dt ≤ e.leftBound ∨ e.rightBound ≤ e.x + e.vx * dt + enemyW) →
    (e.update dt).vx = e.vx ∧ (e.update dt).x = e.x + e.vx * dt)

theorem Enemy.update_leftBound (e : Enemy) (dt : ℚ) :
    (e.update dt).leftBound = e.leftBound := by
  simp only [Enemy.update]
  split_ifs <;> rfl

theorem Enemy.update_rightBound (e : Enemy) (dt : ℚ) :
    (e.update dt).rightBound = e.rightBound := by
  simp only [Enemy.update]
  split_ifs <;> rfl

theorem enemy_step_inBounds (e : Enemy) (dt : ℚ) (h : enemyInBounds e) :
    enemyInBounds (e.update dt) := by
  obtain ⟨h1, h2⟩ := h
  unfold enemyInBounds
  rw [Enemy.update_leftBound, Enemy.update_rightBound]
  simp only [Enemy.update]
  split_ifs with ht hl <;> dsimp only
  · exact ⟨le_refl _, by linarith⟩
  · exact ⟨by linarith, by linarith⟩
  · push_neg at ht
    exact ⟨by linarith [ht.1], by linarith [ht.2]⟩

theorem enemy_step_spec (e : Enemy) (dt : ℚ) : enemyStepSpec e dt := by
  unfold enemyStepSpec
  constructor
  · intro ht
    simp only [Enemy.update, if_pos ht]
    refine ⟨?_, ?_, ?_⟩
    · split_ifs <;> rfl
    · intro hl; rw [if_pos hl]
    · intro hl; rw [if_neg hl]
  · intro ht
    simp [Enemy.update, if_neg ht]

/-- C3 (amended): for every enemy whose position at construction lies
within `[leftBound, rightBound − width]` — true of all enemies built by
`Game::initLevel` — the position stays within that interval after every
sequence of updates, and each update negates `vx` exactly when the
moved position touches a bound, snapping exactly to the violated bound.
(The `Enemy` constructor itself does not clamp the start position, so
the hypothesis cannot be dropped.) -/
theorem enemy_patrol_invariant (e : Enemy) (dts : List ℚ) (dt : ℚ)
    (h1 : e.leftBound ≤ e.x) (h2 : e.x + enemyW ≤ e.rightBound) :
    enemyInBounds (dts.foldl Enemy.update e) ∧
    enemyStepSpec (dts.foldl Enemy.update e) dt := by
  have hinv : enemyInBounds (dts.foldl Enemy.update e) := by
    induction dts generalizing e with
    | nil => exact ⟨h1, h2⟩
    | cons a l ih =>
      rw [List.foldl_cons]
      have := enemy_step_inBounds e a ⟨h1, h2⟩
      exact ih (e.update a) this.1 this.2
  exact ⟨hinv, enemy_step_spec _ dt⟩

/-- Witness for C3 (amended): the first `initLevel` enemy (position 300,
patrol [250,450]) after one update of `dt = 1` and probing a further
step of `dt = 1`. -/
theorem enemy_patrol_invariant_witness :
    (Enemy.spawn 300 460 250 450).leftBound ≤ (Enemy.spawn 300 460 250 450).x ∧
    (Enemy.spawn 300 460 250 450).x + enemyW ≤ (Enemy.spawn 300 460 250 450).rightBound ∧
    (enemyInBounds (List.foldl Enemy.update (Enemy.spawn 300 460 250 450) [1]) ∧
      enemyStepSpec (List.foldl Enemy.update (Enemy.spawn 300 460 250 450) [1]) 1) := by
  refine ⟨?_, ?_, ?_⟩
  · norm_num [Enemy.spawn, ENEMY_MOVE_SPEED]
  · norm_num [Enemy.spawn, enemyW, ENEMY_MOVE_SPEED]
  · exact enemy_patrol_invariant (Enemy.spawn 300 460 250 450) [1] 1
      (by norm_num [Enemy.spawn, ENEMY_MOVE_SPEED])
      (by norm_num [Enemy.spawn, enemyW, ENEMY_MOVE_SPEED])

/-- Counterexample to C3 as stated: the constructor accepts a start
position outside the patrol interval and does not clamp it.
`Enemy(1000, 0, 0, 100)` has `leftBound = 0`, `rightBound = 100`, and
its position 1000 violates `x ≤ rightBound − width = 60` immediately
after construction. -/
theorem enemy_patrol_claim_cex :
    (Enemy.spawn 1000 0 0 100).leftBound = 0 ∧
    (Enemy.spawn 1000 0 0 100).rightBound = 100 ∧
    (Enemy.spawn 1000 0 0 100).x = 1000 ∧
    ¬ enemyInBounds (Enemy.spawn 1000 0 0 100) := by
  norm_num [Enemy.spawn, enemyInBounds, enemyW, ENEMY_MOVE_SPEED]

/-- C4: `Game::initLevel` — the `GameOver → Playing` restart — consults
nothing of the prior state: for any two prior states it produces the
same result, and that result is exactly the fixed initial
configuration: score 0, lives 3, player at the start position (100,400)
with zero velocity, the five rebuilt platforms, the five uncollected
coins, the three enemies alive at their initial patrol positions with
patrol velocity `ENEMY_MOVE_SPEED`, and state `Playing`. -/
theorem restart_resets_to_initial_config (g g' : Game) :
    Game.initLevel g = Game.initLevel g' ∧
    (Game.initLevel g).score = 0 ∧
    (Game.initLevel g).lives = 3 ∧
    (Game.initLevel g).player = { x := 100, y := 400, vx := 0, vy := 0, onGround := false } ∧
    (Game.initLevel g).platforms = levelPlatforms ∧
    (Game.initLevel g).enemies = levelEnemies ∧
    (Game.initLevel g).coins = levelCoins ∧
    (∀ c ∈ (Game.initLevel g).coins, c.collected = false) ∧
    (∀ e ∈ (Game.initLevel g).enemies, e.vx = ENEMY_MOVE_SPEED ∧ enemyInBounds e) ∧
    (Game.initLevel g).currentState = GameState.Playing := by
  refine ⟨rfl, rfl, rfl, rfl, rfl, rfl, rfl, ?_, ?_, rfl⟩
  · intro c hc
    simp only [Game.initLevel, levelCoins] at hc
    fin_cases hc <;> rfl
  · intro e he
    simp only [Game.initLevel, levelEnemies] at he
    fin_cases he <;>
      exact ⟨rfl, by norm_num [Enemy.spawn, enemyInBounds, enemyW, ENEMY_MOVE_SPEED]⟩

/-- The enemy of the C5 counterexample: overlaps the player at (300,420)
and is nowhere near its patrol bounds. -/
def c5Enemy : Enemy := { x := 300, y := 440, vx := 80, leftBound := 0, rightBound := 2000 }

/-- The game state of the C5 counterexample: one life left, the player
standing inside the enemy with upward velocity (`vy = -5`, non-stomp). -/
def c5Game : Game :=
  { currentState := GameState.Playing,
    player := { x := 300, y := 420, vx := 0, vy := -5, onGround := false },
    platforms := [],
    enemies := [c5Enemy],
    coins := [],
    score := 0,
    lives := 1 }

/-- Counterexample to C5 as stated: with lives = 1 and a non-stomp
enemy contact during `Game::update`, lives does become 0 and the state
does transition to `GameOver` — but the player's position is NOT left
unchanged: the damage branch respawns the player at (100,400) before
the lives check, so there is no short-circuit.  The player moves from
x = 300 to x = 100. -/
theorem damage_respawn_claim_cex :
    (c5Game.update 0).lives = 0 ∧
    (c5Game.update 0).currentState = GameState.GameOver ∧
    c5Game.player.x = 300 ∧ c5Game.player.y = 420 ∧
    (c5Game.update 0).player.x = 100 ∧ (c5Game.update 0).player.y = 400 ∧
    (c5Game.update 0).player.x ≠ c5Game.player.x := by
  norm_num [Game.update, c5Game, c5Enemy, Player.update, preClampPlayer, vmoveState,
    hResolve, Player.afterGravity, Player.afterHMove, clampX, playerW, playerH,
    GRAVITY, updateRest, processEnemies, interactEnemy, Enemy.update, enemyW,
    enemyCollide, checkCollision, playerBounds, enemyBounds, enemyH, stompCond,
    PLAYER_JUMP_VELOCITY, processCoins, coinStep]

/-- C5 (amended): if lives = 1 and the player's bounds overlap an
enemy's bounds without satisfying the stomp condition, the damage
branch of `Game::update` leaves lives = 0 and state `GameOver`, and it
respawns the player at the start position (100,400) with zero velocity
— the reset happens before the lives check, so the position is NOT
left unchanged. -/
theorem damage_at_one_life (g : Game) (e : Enemy)
    (hl : g.lives = 1)
    (hov : checkCollision (playerBounds g.player) (enemyBounds e) = true)
    (hns : stompCond g.player e = false) :
    (enemyCollide g e).1.lives = 0 ∧
    (enemyCollide g e).1.currentState = GameState.GameOver ∧
    (enemyCollide g e).1.player.x = 100 ∧
    (enemyCollide g e).1.player.y = 400 ∧
    (enemyCollide g e).1.player.vx = 0 ∧
    (enemyCollide g e).1.player.vy = 0 := by
  simp [enemyCollide, hov, hns, hl]

/-- Witness for C5 (amended): the concrete one-life damage scenario of
`c5Game` (the overlap and non-stomp facts are discharged by
computation). -/
theorem damage_at_one_life_witness :
    c5Game.lives = 1 ∧
    checkCollision (playerBounds c5Game.player) (enemyBounds c5Enemy) = true ∧
    stompCond c5Game.player c5Enemy = false ∧
    ((enemyCollide c5Game c5Enemy).1.lives = 0 ∧
      (enemyCollide c5Game c5Enemy).1.currentState = GameState.GameOver ∧
      (enemyCollide c5Game c5Enemy).1.player.x = 100 ∧
      (enemyCollide c5Game c5Enemy).1.player.y = 400 ∧
      (enemyCollide c5Game c5Enemy).1.player.vx = 0 ∧
      (enemyCollide c5Game c5Enemy).1.player.vy = 0) := by
  refine ⟨rfl, ?_, ?_, ?_⟩
  · norm_num [checkCollision, playerBounds, enemyBounds, c5Game, c5Enemy,
      playerW, playerH, enemyW, enemyH]
  · norm_num [stompCond, c5Game, c5Enemy, playerH]
  · exact damage_at_one_life c5Game c5Enemy rfl
      (by norm_num [checkCollision, playerBounds, enemyBounds, c5Game, c5Enemy,
        playerW, playerH, enemyW, enemyH])
      (by norm_num [stompCond, c5Game, c5Enemy, playerH])

/-! ## Helper lemmas about the coin and enemy loops of `Game::update` -/

theorem coinStep_of_collected (g : Game) (c : Coin) (h : c.collected = true) :
    coinStep g c = (g, c) := by
  simp [coinStep, h]

theorem processCoins_get?_of_collected (cs : List Coin) (g : Game) (i : ℕ) (co : Coin)
    (hi : cs.get? i = some co) (hc : co.collected = true) :
    (processCoins g cs).2.get? i = some co := by
  induction cs generalizing g i with
  | nil => cases hi
  | cons c cs ih =>
    cases i with
    | zero =>
      rw [List.get?_cons_zero] at hi
      injection hi with hi
      subst hi
      simp [processCoins, coinStep_of_collected _ _ hc]
    | succ n =>
      rw [List.get?_cons_succ] at hi
      simp only [processCoins, List.get?_cons_succ]
      exact ih (coinStep g c).1 n hi

theorem enemyCollide_coins (g : Game) (e : Enemy) :
    (enemyCollide g e).1.coins = g.coins := by
  simp only [enemyCollide]
  split_ifs <;> rfl

theorem processEnemies_coins (dt : ℚ) (g : Game) (es : List Enemy) :
    (processEnemies dt g es).1.coins = g.coins := by
  induction es generalizing g with
  | nil => rfl
  | cons e es ih =>
    simp only [processEnemies]
    rw [ih, interactEnemy, enemyCollide_coins]

theorem updateRest_coins_mono (g : Game) (dt : ℚ) (i : ℕ) (co : Coin)
    (hi : g.coins.get? i = some co) (hc : co.collected = true) :
    (updateRest g dt).coins.get? i = some co := by
  simp only [updateRest]
  apply processCoins_get?_of_collected
  · rw [processEnemies_coins]
    exact hi
  · exact hc

/-- C6: the coin-collection step of `Game::update`: an uncollected coin
overlapping the player becomes collected with score increased by
exactly 10; a collected coin leaves the whole state unchanged (so no
later update changes the score on account of that coin); and across a
full `Game::update`, every coin already collected is still present,
unchanged and collected at the same index (monotonicity for the
remainder of the level instance). -/
theorem coin_collect_once :
    (∀ (g : Game) (c : Coin), c.collected = false →
      checkCollision (playerBounds g.player) (coinBounds c) = true →
      (coinStep g c).2.collected = true ∧ (coinStep g c).1.score = g.score + 10) ∧
    (∀ (g : Game) (c : Coin), c.collected = true → coinStep g c = (g, c)) ∧
    (∀ (g : Game) (dt : ℚ) (i : ℕ) (co : Coin),
      g.coins.get? i = some co → co.collected = true →
      (g.update dt).coins.get? i = some co) := by
  refine ⟨?_, coinStep_of_collected, ?_⟩
  · intro g c hc hov
    constructor <;> simp [coinStep, hc, hov]
  · intro g dt i co hi hc
    simp only [Game.update]
    split_ifs with h1 h2
    · exact hi
    · exact updateRest_coins_mono _ dt i co hi hc
    · exact updateRest_coins_mono _ dt i co hi hc

/-- Witness for C6: a concrete pickup.  The player at (100,400)
overlaps the uncollected coin at (110,420); one `coinStep` collects it
and adds exactly 10 to the score (here 0 → 10). -/
theorem coin_collect_once_witness :
    ({ x := 110, y := 420, collected := false } : Coin).collected = false ∧
    checkCollision
      (playerBounds { x := 100, y := 400, vx := 0, vy := 0, onGround := false })
      (coinBounds { x := 110, y := 420, collected := false }) = true ∧
    ((coinStep
      { currentState := GameState.Playing,
        player := { x := 100, y := 400, vx := 0, vy := 0, onGround := false },
        platforms := [], enemies := [], coins := [], score := 0, lives := 3 }
      { x := 110, y := 420, collected := false }).2.collected = true ∧
     (coinStep
      { currentState := GameState.Playing,
        player := { x := 100, y := 400, vx := 0, vy := 0, onGround := false },
        platforms := [], enemies := [], coins := [], score := 0, lives := 3 }
      { x := 110, y := 420, collected := false }).1.score = 0 + 10) := by
  refine ⟨rfl, ?_, ?_⟩
  · norm_num [checkCollision, playerBounds, coinBounds, playerW, playerH, coinW, coinH]
  · exact coin_collect_once.1
      { currentState := GameState.Playing,
        player := { x := 100, y := 400, vx := 0, vy := 0, onGround := false },
        platforms := [], enemies := [], coins := [], score := 0, lives := 3 }
      { x := 110, y := 420, collected := false } rfl
      (by norm_num [checkCollision, playerBounds, coinBounds, playerW, playerH, coinW, coinH])

/-! ## Helper lemmas for the state machine (C7) -/

/-- Whenever the state is `GameOver`, lives have reached 0: the only
two writes of `GameOver` in `Game::update` are guarded by
`lives <= 0`. -/
def livesOutInv (g : Game) : Prop :=
  g.currentState = GameState.GameOver → g.lives ≤ 0

theorem enemyCollide_livesOutInv (g : Game) (e : Enemy) (h : livesOutInv g) :
    livesOutInv (enemyCollide g e).1 := by
  simp only [enemyCollide]
  split_ifs with hov hs hle
  · exact h
  · intro _
    exact hle
  · intro hgo
    have := h hgo
    show g.lives - 1 ≤ 0
    linarith
  · exact h

theorem processEnemies_livesOutInv (dt : ℚ) (es : List Enemy) (g : Game)
    (h : livesOutInv g) : livesOutInv (processEnemies dt g es).1 := by
  induction es generalizing g with
  | nil => exact h
  | cons e es ih =>
    simp only [processEnemies]
    exact ih _ (enemyCollide_livesOutInv g (e.update dt) h)

theorem coinStep_state_lives (g : Game) (c : Coin) :
    (coinStep g c).1.currentState = g.currentState ∧
    (coinStep g c).1.lives = g.lives := by
  simp only [coinStep]
  split_ifs <;> exact ⟨rfl, rfl⟩

theorem processCoins_state_lives (cs : List Coin) (g : Game) :
    (processCoins g cs).1.currentState = g.currentState ∧
    (processCoins g cs).1.lives = g.lives := by
  induction cs generalizing g with
  | nil => exact ⟨rfl, rfl⟩
  | cons c cs ih =>
    simp only [processCoins]
    obtain ⟨h1, h2⟩ := ih (coinStep g c).1
    obtain ⟨h3, h4⟩ := coinStep_state_lives g c
    exact ⟨h1.trans h3, h2.trans h4⟩

theorem updateRest_state (g : Game) (dt : ℚ) :
    (updateRest g dt).currentState = (processEnemies dt g g.enemies).1.currentState :=
  (processCoins_state_lives _ _).1

theorem updateRest_lives (g : Game) (dt : ℚ) :
    (updateRest g dt).lives = (processEnemies dt g g.enemies).1.lives :=
  (processCoins_state_lives _ _).2

theorem updateRest_livesOutInv (g : Game) (dt : ℚ) (h : livesOutInv g) :
    livesOutInv (updateRest g dt) := by
  intro hgo
  rw [updateRest_state] at hgo
  rw [updateRest_lives]
  exact processEnemies_livesOutInv dt g.enemies g h hgo

theorem Game.update_livesOutInv (g : Game) (dt : ℚ) (h : livesOutInv g) :
    livesOutInv (g.update dt) := by
  simp only [Game.update]
  split_ifs with h1 h2
  · intro _
    exact h2
  · apply updateRest_livesOutInv
    intro hgo
    have := h hgo
    dsimp only
    linarith
  · exact updateRest_livesOutInv _ dt h

theorem handleEvents_gameOver_no_restart (g : Game) (inp : Input)
    (h1 : g.currentState = GameState.GameOver) (h2 : inp.restartPressed = false) :
    g.handleEvents inp = g := by
  simp [Game.handleEvents, h1, h2]

theorem handleEvents_playing (g : Game) (inp : Input)
    (h : g.currentState = GameState.Playing) :
    g.handleEvents inp = { g with player := g.player.handleInput inp } := by
  simp [Game.handleEvents, h]

/-- C7: the two-state machine.  (1) In `GameOver` without the restart
key, a whole frame leaves the game state literally unchanged — no
player movement, no physics, no scoring.  (2) In `GameOver` with the
restart key, event handling transitions to `Playing` (via
`initLevel`).  (3) From `Playing`, a frame ends in `GameOver` only
when lives have reached 0; no other transition exists. -/
theorem game_state_transitions :
    (∀ (g : Game) (inp : Input) (dt : ℚ),
      g.currentState = GameState.GameOver → inp.restartPressed = false →
      Game.frame g inp dt = g) ∧
    (∀ (g : Game) (inp : Input),
      g.currentState = GameState.GameOver → inp.restartPressed = true →
      (Game.handleEvents g inp).currentState = GameState.Playing) ∧
    (∀ (g : Game) (inp : Input) (dt : ℚ),
      g.currentState = GameState.Playing →
      (Game.frame g inp dt).currentState = GameState.GameOver →
      (Game.frame g inp dt).lives ≤ 0) := by
  refine ⟨?_, ?_, ?_⟩
  · intro g inp dt h1 h2
    rw [Game.frame, handleEvents_gameOver_no_restart g inp h1 h2, if_neg]
    rw [h1]
    intro hc
    cases hc
  · intro g inp h1 h2
    simp [Game.handleEvents, h1, h2, Game.initLevel]
  · intro g inp dt h1
    rw [Game.frame, handleEvents_playing g inp h1, if_pos h1]
    exact Game.update_livesOutInv _ dt (by intro hc; rw [h1] at hc; cases hc)

/-- Witness for C7: a concrete `GameOver` state with the restart key
not pressed; the frame is the identity, and with the restart key the
state returns to `Playing`. -/
theorem game_state_transitions_witness :
    c5Game.currentState = GameState.Playing ∧
    ({ c5Game with currentState := GameState.GameOver } : Game).currentState
      = GameState.GameOver ∧
    (⟨false, false, false, false⟩ : Input).restartPressed = false ∧
    Game.frame { c5Game with currentState := GameState.GameOver }
      ⟨false, false, false, false⟩ 1 =
      { c5Game with currentState := GameState.GameOver } := by
  refine ⟨rfl, rfl, rfl, ?_⟩
  exact game_state_transitions.1 { c5Game with currentState := GameState.GameOver }
    ⟨false, false, false, false⟩ 1 rfl rfl

/-- C8 (amended): on every `Player::update` the horizontal position is
clamped to the WINDOW edges `[0, 800 − playerW]` (the code comments
read "Keep player within window bounds" / "Assuming window width
800"), zeroing `vx` whenever a clamp fires; when no clamp fires the
update is exactly the pre-clamp physics state.  The clamp does not use
the 2000-unit level width. -/
theorem player_edge_clamp (p : Player) (dt : ℚ) (platforms : List Rect) :
    (0 ≤ (Player.update p dt platforms).x ∧
      (Player.update p dt platforms).x + playerW ≤ 800) ∧
    ((preClampPlayer p dt platforms).x < 0 ∨
        800 < (preClampPlayer p dt platforms).x + playerW →
      (Player.update p dt platforms).vx = 0) ∧
    (¬ ((preClampPlayer p dt platforms).x < 0 ∨
        800 < (preClampPlayer p dt platforms).x + playerW) →
      Player.update p dt platforms = preClampPlayer p dt platforms) := by
  set q := preClampPlayer p dt platforms with hq
  rw [Player.update, ← hq]
  simp only [clampX]
  split_ifs with h1 h2 h3
  · exact absurd h2 (by norm_num [playerW])
  · refine ⟨⟨le_refl _, by norm_num [playerW]⟩, fun _ => rfl, ?_⟩
    intro hcon
    exact absurd (Or.inl h1) hcon
  · refine ⟨⟨by norm_num [playerW], by norm_num [playerW]⟩, fun _ => rfl, ?_⟩
    intro hcon
    exact absurd (Or.inr h3) hcon
  · push_neg at h1 h3
    refine ⟨⟨h1, h3⟩, ?_, fun _ => rfl⟩
    intro hcon
    rcases hcon with hc | hc
    · exact absurd hc (not_lt.mpr h1)
    · exact absurd hc (not_lt.mpr h3)

/-- Witness for C8 (amended): a player parked at x = 900 with `dt = 0`
and no platforms is pulled back to x = 760 = 800 − 40 with `vx`
zeroed. -/
theorem player_edge_clamp_witness :
    (800 : ℚ) < (preClampPlayer ⟨900, 0, 5, 0, false⟩ 0 []).x + playerW ∧
    (0 ≤ (Player.update ⟨900, 0, 5, 0, false⟩ 0 []).x ∧
      (Player.update ⟨900, 0, 5, 0, false⟩ 0 []).x + playerW ≤ 800) ∧
    (Player.update ⟨900, 0, 5, 0, false⟩ 0 []).vx = 0 := by
  have hgt : (800 : ℚ) < (preClampPlayer ⟨900, 0, 5, 0, false⟩ 0 []).x + playerW := by
    norm_num [preClampPlayer, vmoveState, hResolve, Player.afterGravity,
      Player.afterHMove, playerW, GRAVITY]
  refine ⟨hgt, (player_edge_clamp ⟨900, 0, 5, 0, false⟩ 0 []).1,
    (player_edge_clamp ⟨900, 0, 5, 0, false⟩ 0 []).2.1 (Or.inr hgt)⟩

/-- Counterexample to C8 as stated: the claim's clamp interval is
`[0, 2000 − playerW] = [0, 1960]`, inside which x = 900 lies, so the
claimed clamp would leave a player at x = 900 untouched; but the code
clamps against the 800-unit window width and moves the player to
x = 760. -/
theorem player_edge_clamp_claim_cex :
    (0 : ℚ) ≤ 900 ∧ (900 : ℚ) + playerW ≤ 2000 ∧
    (preClampPlayer ⟨900, 0, 0, 0, false⟩ 0 []).x = 900 ∧
    (Player.update ⟨900, 0, 0, 0, false⟩ 0 []).x = 760 ∧
    (Player.update ⟨900, 0, 0, 0, false⟩ 0 []).x ≠ 900 := by
  norm_num [Player.update, preClampPlayer, vmoveState, hResolve, Player.afterGravity,
    Player.afterHMove, clampX, playerW, GRAVITY]

theorem Enemy.update_y (e : Enemy) (dt : ℚ) : (e.update dt).y = e.y := by
  simp only [Enemy.update]
  split_ifs <;> rfl

theorem enemy_foldl_y (e : Enemy) (dts : List ℚ) :
    (dts.foldl Enemy.update e).y = e.y := by
  induction dts generalizing e with
  | nil => rfl
  | cons a l ih => rw [List.foldl_cons, ih, Enemy.update_y]

/-- C9 (amended): a stomped enemy is not removed from the lists — it is
teleported to y = −1000 and is still updated and drawn every frame —
but no later `Enemy::update` ever changes its y-coordinate, so it stays
at y = −1000 forever (until `initLevel` rebuilds the list), and its
bounds can never overlap a player whose top edge is at y ≥ −960, i.e.
any player in the normal play area; hence it never interacts with the
player again. -/
theorem stomped_enemy_stays_out (e : Enemy) (dts : List ℚ) (p : Player)
    (he : e.y = -1000) (hp : (-960 : ℚ) ≤ p.y) :
    (dts.foldl Enemy.update e).y = -1000 ∧
    checkCollision (playerBounds p) (enemyBounds (dts.foldl Enemy.update e)) = false := by
  have hy : (dts.foldl Enemy.update e).y = -1000 := by
    rw [enemy_foldl_y]
    exact he
  refine ⟨hy, ?_⟩
  have hno : ¬ (max (playerBounds p).py (enemyBounds (dts.foldl Enemy.update e)).py <
      min ((playerBounds p).py + (playerBounds p).sy)
        ((enemyBounds (dts.foldl Enemy.update e)).py +
          (enemyBounds (dts.foldl Enemy.update e)).sy)) := by
    simp only [playerBounds, enemyBounds, hy, playerH, enemyH]
    intro hcon
    have hmin : min (p.y + 60) ((-1000 : ℚ) + 40) ≤ -960 := by
      refine le_trans (min_le_right _ _) (by norm_num)
    have hmax : (p.y : ℚ) ≤ max p.y (-1000 : ℚ) := le_max_left _ _
    linarith
  simp only [checkCollision, Bool.and_eq_false_iff, decide_eq_false_iff_not]
  right
  exact hno

/-- Witness for C9 (amended): the first patrol enemy after being
stomped (teleported to (-1000,-1000)), followed by two further updates,
against the respawn-position player: its y stays −1000 and there is no
overlap. -/
theorem stomped_enemy_stays_out_witness :
    ({ x := -1000, y := -1000, vx := 80, leftBound := 250, rightBound := 450 } : Enemy).y
      = -1000 ∧
    (-960 : ℚ) ≤ ({ x := 100, y := 400, vx := 0, vy := 0, onGround := false } : Player).y ∧
    (([1/100, 2] : List ℚ).foldl Enemy.update
      { x := -1000, y := -1000, vx := 80, leftBound := 250, rightBound := 450 }).y
        = -1000 ∧
    checkCollision
      (playerBounds { x := 100, y := 400, vx := 0, vy := 0, onGround := false })
      (enemyBounds (([1/100, 2] : List ℚ).foldl Enemy.update
        { x := -1000, y := -1000, vx := 80, leftBound := 250, rightBound := 450 }))
      = false := by
  have h := stomped_enemy_stays_out
    { x := -1000, y := -1000, vx := 80, leftBound := 250, rightBound := 450 }
    [1/100, 2]
    { x := 100, y := 400, vx := 0, vy := 0, onGround := false }
    rfl (by norm_num)
  exact ⟨rfl, by norm_num, h.1, h.2⟩

/-- The game state of the C9 counterexample: a freshly stomped enemy
(at (-1000,-1000)) and the player at the start position. -/
def c9Game : Game :=
  { currentState := GameState.Playing,
    player := { x := 100, y := 400, vx := 0, vy := 0, onGround := false },
    platforms := [],
    enemies := [{ x := -1000, y := -1000, vx := 80, leftBound := 250, rightBound := 450 }],
    coins := [],
    score := 100,
    lives := 3 }

/-- Counterexample to C9 as stated: the stomped enemy is NOT removed
from active play — the very next `Game::update` still calls
`Enemy::update` on it and mutates it: its x snaps from −1000 back to
its left patrol bound 250 with reversed velocity.  ("No longer
updated" is false; the enemy stays in the vector and is updated and
drawn every frame.) -/
theorem stomped_enemy_claim_cex :
    c9Game.enemies = [{ x := -1000, y := -1000, vx := 80, leftBound := 250, rightBound := 450 }] ∧
    (c9Game.update (1/100)).enemies =
      [{ x := 250, y := -1000, vx := -80, leftBound := 250, rightBound := 450 }] ∧
    (c9Game.update (1/100)).enemies ≠ c9Game.enemies := by
  refine ⟨rfl, ?_, ?_⟩
  · norm_num [Game.update, c9Game, Player.update, preClampPlayer, vmoveState,
      hResolve, Player.afterGravity, Player.afterHMove, clampX, playerW, playerH,
      GRAVITY, updateRest, processEnemies, interactEnemy, Enemy.update, enemyW,
      enemyCollide, checkCollision, playerBounds, enemyBounds, enemyH, stompCond,
      processCoins, coinStep]
  · intro hcon
    have h2 : (c9Game.update (1/100)).enemies =
        [{ x := 250, y := -1000, vx := -80, leftBound := 250, rightBound := 450 }] := by
      norm_num [Game.update, c9Game, Player.update, preClampPlayer, vmoveState,
        hResolve, Player.afterGravity, Player.afterHMove, clampX, playerW, playerH,
        GRAVITY, updateRest, processEnemies, interactEnemy, Enemy.update, enemyW,
        enemyCollide, checkCollision, playerBounds, enemyBounds, enemyH, stompCond,
        processCoins, coinStep]
    rw [h2] at hcon
    simp only [c9Game, List.cons.injEq] at hcon
    have := hcon.1
    have hx : (250 : ℚ) = -1000 := by
      injection this
    norm_num at hx
